import Mathlib

/-
A shallow embedding of the Transport-Optimization-AI decision-support core:
the elasticity simulator (src/transport_ai/simulation/incentives.py) and the
allocation optimizer (src/transport_ai/optimization/optimizer.py).

Conventions of the embedding:
- Python floats are modelled by the rationals; the float NaN that results from
  the unguarded division 0.0/0.0 in the simulator is modelled by Option.none.
- A pandas DataFrame is modelled as a list of records; a timestamp is modelled
  as a number of hours since an epoch, so that the pandas accessor dt.hour
  corresponds to reduction modulo 24.
- The linear program built by optimize_demand is solved by an external backend
  (PuLP/CBC). The constraint set is embedded as the predicate Feasible on an
  assignment of the decision variables, and a successful solve is an
  assignment satisfying OptimalSolution; the post-solve construction of the
  output table is embedded as the function optimize_demand over such an
  assignment.
-/

namespace TransportAI

/-! ## Data model -/

structure DemandRow where
  route_id : String
  stop_id : String
  timestamp : Nat
  validations : ℚ
deriving DecidableEq, Repr

structure CapacityRow where
  route_id : String
  timestamp : Nat
  capacity : ℚ
deriving DecidableEq, Repr

structure ElasticityConfig where
  price_elasticity : ℚ
  time_elasticity : ℚ
  peak_hours : Nat × Nat := (7, 9)
  shoulder_hours : Nat × Nat := (10, 15)
deriving DecidableEq, Repr

structure OptimizationConfig where
  revenue_tolerance : ℚ := 0
  min_service_factor : ℚ := 8 / 10
deriving DecidableEq, Repr

/-! ## Elasticity simulator (incentives.py) -/

/-- `baseline["timestamp"].dt.hour`: hour of day of a timestamp counted in
hours since an epoch. -/
def hourOf (ts : Nat) : Nat := ts % 24

/-- `Series.between(lo, hi)`: inclusive on both ends. -/
def inRange (r : Nat × Nat) (h : Nat) : Bool := r.1 ≤ h && h ≤ r.2

/-- Membership in the peak mask of incentives.py line 37. -/
def isPeak (cfg : ElasticityConfig) (row : DemandRow) : Bool :=
  inRange cfg.peak_hours (hourOf row.timestamp)

/-- Membership in the shoulder mask of incentives.py line 38. -/
def isShoulder (cfg : ElasticityConfig) (row : DemandRow) : Bool :=
  inRange cfg.shoulder_hours (hourOf row.timestamp)

/-- `total_elasticity = price_elasticity + time_elasticity`. -/
def totalElasticity (cfg : ElasticityConfig) : ℚ :=
  cfg.price_elasticity + cfg.time_elasticity

/-- `peak_demand.sum()` over the baseline values. -/
def peakSum (demand : List DemandRow) (cfg : ElasticityConfig) : ℚ :=
  ((demand.filter (fun r => isPeak cfg r)).map (fun r => r.validations)).sum

/-- `shifted.sum()` where `shifted = peak_demand * (-total_elasticity)`. -/
def shiftedSum (demand : List DemandRow) (cfg : ElasticityConfig) : ℚ :=
  peakSum demand cfg * (-(totalElasticity cfg))

/-- `shoulder_count = max(shoulder_mask.sum(), 1)`. -/
def shoulderCount (demand : List DemandRow) (cfg : ElasticityConfig) : Nat :=
  max (demand.countP (fun r => isShoulder cfg r)) 1

/-- The value a record holds after the two `.loc` assignments of
incentives.py lines 44 and 46, before the clip of line 47.  Both assignments
read the column values captured before any assignment, and the shoulder
assignment executes second, so for a record lying in both masks the shoulder
assignment wins. -/
def simVal (demand : List DemandRow) (cfg : ElasticityConfig) (row : DemandRow) : ℚ :=
  if isShoulder cfg row then
    row.validations - shiftedSum demand cfg / (shoulderCount demand cfg : ℚ)
  else if isPeak cfg row then
    row.validations + row.validations * (-(totalElasticity cfg))
  else
    row.validations

/-- The simulated table: the two mask assignments followed by
`clip(lower=0)`. -/
def simulatedRows (demand : List DemandRow) (cfg : ElasticityConfig) : List DemandRow :=
  demand.map (fun row => { row with validations := max 0 (simVal demand cfg row) })

structure SimulationResult where
  baseline : List DemandRow
  simulated : List DemandRow
  /-- `none` models the float NaN produced by the unguarded division when the
  baseline peak sum is zero. -/
  peak_reduction_pct : Option ℚ
  revenue_delta_pct : ℚ
deriving DecidableEq, Repr

/-- Embedding of `simulate_incentives(demand, elasticity, fare)`, assuming the
required columns are present. -/
def simulate_incentives (demand : List DemandRow) (cfg : ElasticityConfig)
    (fare : ℚ) : SimulationResult :=
  let baselineRevenue : ℚ := (demand.map (fun r => r.validations)).sum * fare
  let sim := simulatedRows demand cfg
  let simRevenue : ℚ := (sim.map (fun r => r.validations)).sum * fare
  let simPeakSum : ℚ := ((sim.filter (fun r => isPeak cfg r)).map (fun r => r.validations)).sum
  { baseline := demand
    simulated := sim
    peak_reduction_pct :=
      if peakSum demand cfg = 0 then none
      else some ((1 - simPeakSum / peakSum demand cfg) * 100)
    revenue_delta_pct :=
      if baselineRevenue ≠ 0 then (simRevenue - baselineRevenue) / baselineRevenue * 100
      else 0 }

/-- A demand DataFrame together with which of the two required columns are
present; `simulate_incentives` accesses the timestamp column first (line 32)
and the validations column second (line 33), and a missing column raises a
pandas KeyError naming it. -/
structure DemandTable where
  hasTimestamp : Bool
  hasValidations : Bool
  rows : List DemandRow
deriving DecidableEq, Repr

/-- `simulate_incentives` at the DataFrame level: the only raising points are
the two column accesses; there is no other input validation. -/
def simulate_incentives_table (demand : DemandTable) (cfg : ElasticityConfig)
    (fare : ℚ) : Except String SimulationResult :=
  if !demand.hasTimestamp then .error "timestamp"
  else if !demand.hasValidations then .error "validations"
  else .ok (simulate_incentives demand.rows cfg fare)

/-! ## Allocation optimizer (optimizer.py) -/

/-- `demand["route_id"].unique()`: the distinct routes of the demand table. -/
def routesOf (demand : List DemandRow) : List String :=
  (demand.map (fun r => r.route_id)).dedup

/-- The distinct timestamps of the demand table (the sort in the source does
not affect any constraint or output). -/
def timesOf (demand : List DemandRow) : List Nat :=
  (demand.map (fun r => r.timestamp)).dedup

/-- `fares.get(route, 0.0)`: fare lookup with default 0. -/
def fareOf (fares : List (String × ℚ)) (r : String) : ℚ :=
  ((fares.find? (fun p => p.1 == r)).map (fun p => p.2)).getD 0

/-- Capacity lookup for a (route, timestamp) pair: the first matching row, or
the unbounded sentinel 1e6 when none matches. -/
def capOf (capacity : List CapacityRow) (r : String) (t : Nat) : ℚ :=
  ((capacity.find? (fun c => c.route_id == r && c.timestamp == t)).map
    (fun c => c.capacity)).getD 1000000

/-- `baseline_revenue = (demand["validations"] * demand["route_id"].map(fares)).sum()`. -/
def baselineRevenue (demand : List DemandRow) (fares : List (String × ℚ)) : ℚ :=
  (demand.map (fun row => row.validations * fareOf fares row.route_id)).sum

/-- The revenue expression of the LP constraint: the sum over the full
route × timestamp grid of decision variables weighted by fares. -/
def gridRevenue (demand : List DemandRow) (fares : List (String × ℚ))
    (x : String → Nat → ℚ) : ℚ :=
  ((routesOf demand).map (fun r =>
    ((timesOf demand).map (fun t => x r t * fareOf fares r)).sum)).sum

/-- The constraint set of the linear program built by `optimize_demand`: an
assignment `x` of the decision variables and `peak` of the peak-load variable
is feasible when every constraint added to the model holds. -/
def Feasible (demand : List DemandRow) (capacity : List CapacityRow)
    (fares : List (String × ℚ)) (cfg : OptimizationConfig)
    (x : String → Nat → ℚ) (peak : ℚ) : Prop :=
  (∀ r ∈ routesOf demand, ∀ t ∈ timesOf demand,
      0 ≤ x r t ∧ x r t ≤ capOf capacity r t) ∧
  0 ≤ peak ∧
  (∀ t ∈ timesOf demand, ((routesOf demand).map (fun r => x r t)).sum ≤ peak) ∧
  baselineRevenue demand fares * (1 - cfg.revenue_tolerance) ≤ gridRevenue demand fares x ∧
  (∀ row ∈ demand, row.validations * cfg.min_service_factor ≤ x row.route_id row.timestamp)

instance decidableFeasible (demand : List DemandRow) (capacity : List CapacityRow)
    (fares : List (String × ℚ)) (cfg : OptimizationConfig)
    (x : String → Nat → ℚ) (peak : ℚ) :
    Decidable (Feasible demand capacity fares cfg x peak) := by
  unfold Feasible
  infer_instance

/-- A successful solve of the minimization problem: a feasible assignment
whose peak-load value no feasible assignment improves. -/
def OptimalSolution (demand : List DemandRow) (capacity : List CapacityRow)
    (fares : List (String × ℚ)) (cfg : OptimizationConfig)
    (x : String → Nat → ℚ) (peak : ℚ) : Prop :=
  Feasible demand capacity fares cfg x peak ∧
  ∀ y q, Feasible demand capacity fares cfg y q → peak ≤ q

/-- One row of the returned optimized table. -/
structure OptRow where
  route_id : String
  stop_id : String
  timestamp : Nat
  validations : ℚ
  optimized_validations : ℚ
  capacity : ℚ
deriving DecidableEq, Repr

/-- The per-row part of the output table built after the solve. -/
def optimizedRows (demand : List DemandRow) (capacity : List CapacityRow)
    (x : String → Nat → ℚ) : List OptRow :=
  demand.map (fun row =>
    { route_id := row.route_id
      stop_id := row.stop_id
      timestamp := row.timestamp
      validations := row.validations
      optimized_validations := x row.route_id row.timestamp
      capacity := capOf capacity row.route_id row.timestamp })

/-- The revenue recomputed for the delta column, over the output rows
(optimizer.py line 92). -/
def rowRevenue (demand : List DemandRow) (fares : List (String × ℚ))
    (x : String → Nat → ℚ) : ℚ :=
  (demand.map (fun row => x row.route_id row.timestamp * fareOf fares row.route_id)).sum

/-- The broadcast `revenue_delta_pct` column. -/
def revenueDeltaPct (demand : List DemandRow) (fares : List (String × ℚ))
    (x : String → Nat → ℚ) : ℚ :=
  if baselineRevenue demand fares ≠ 0 then
    (rowRevenue demand fares x - baselineRevenue demand fares)
      / baselineRevenue demand fares * 100
  else 0

structure OptimizedAllocation where
  rows : List OptRow
  peak_load : ℚ
  revenue_delta_pct : ℚ
deriving DecidableEq, Repr

/-- The output table `optimize_demand` returns, as a function of the
assignment left by the solver.  The source builds this table unconditionally
after `model.solve`, without inspecting the solver status. -/
def optimize_demand (demand : List DemandRow) (capacity : List CapacityRow)
    (fares : List (String × ℚ)) (x : String → Nat → ℚ) (peak : ℚ) :
    OptimizedAllocation :=
  { rows := optimizedRows demand capacity x
    peak_load := peak
    revenue_delta_pct := revenueDeltaPct demand fares x }

/-- The sum of `optimized_validations` over the output rows carrying a given
timestamp. -/
def tsRowSum (rows : List OptRow) (t : Nat) : ℚ :=
  ((rows.filter (fun r => r.timestamp == t)).map (fun r => r.optimized_validations)).sum

/-! ## Concrete scenario inputs -/

/-- Scenario A elasticity configuration: both elasticities 0.05, default
peak and shoulder hour ranges. -/
def cfgA : ElasticityConfig := { price_elasticity := 1 / 20, time_elasticity := 1 / 20 }

/-- Scenario A demand: three peak records with 100 validations each and six
shoulder records with 50 validations each. -/
def scA : List DemandRow :=
  [⟨"R", "S", 7, 100⟩, ⟨"R", "S", 8, 100⟩, ⟨"R", "S", 9, 100⟩,
   ⟨"R", "S", 10, 50⟩, ⟨"R", "S", 11, 50⟩, ⟨"R", "S", 12, 50⟩,
   ⟨"R", "S", 13, 50⟩, ⟨"R", "S", 14, 50⟩, ⟨"R", "S", 15, 50⟩]

/-- A demand table with no peak record at all: its single record sits at hour
12, outside the default peak range (7, 9). -/
def d8 : List DemandRow := [⟨"R", "S", 12, 50⟩]

/-- An elasticity configuration whose peak range (7, 9) and shoulder range
(9, 15) overlap at hour 9. -/
def cfg7 : ElasticityConfig :=
  { price_elasticity := 1 / 20, time_elasticity := 1 / 20
    peak_hours := (7, 9), shoulder_hours := (9, 15) }

/-- A single record at hour 9, inside both ranges of `cfg7`. -/
def d7 : List DemandRow := [⟨"R", "S", 9, 100⟩]

/-- An elasticity configuration with a negative total elasticity (still
below 1). -/
def cfg10 : ElasticityConfig := { price_elasticity := -10, time_elasticity := 0 }

/-- One peak record and one shoulder record, both non-negative. -/
def d10 : List DemandRow := [⟨"R", "S", 8, 10⟩, ⟨"R", "S", 12, 5⟩]

/-- Scenario C demand: a single route, three timestamps, validations
[10, 50, 10]. -/
def scCd : List DemandRow := [⟨"R", "S", 7, 10⟩, ⟨"R", "S", 8, 50⟩, ⟨"R", "S", 9, 10⟩]

/-- Scenario C capacity: 100 at every timestamp. -/
def scCc : List CapacityRow := [⟨"R", 7, 100⟩, ⟨"R", 8, 100⟩, ⟨"R", 9, 100⟩]

/-- Scenario C fares: fare 2.0 on the single route. -/
def scCf : List (String × ℚ) := [("R", 2)]

/-- Scenario C configuration: revenue_tolerance 0, min_service_factor 0.8. -/
def scCcfg : OptimizationConfig := { revenue_tolerance := 0, min_service_factor := 8 / 10 }

/-- A feasible assignment for Scenario C attaining peak load 40:
x = 40 at the binding timestamp 8 and 15 elsewhere, so that total revenue
2 × (15 + 40 + 15) meets the baseline 140 exactly. -/
def scCx : String → Nat → ℚ := fun _ t => if t == 8 then 40 else 15

/-- Two demand rows that share the same (route_id, timestamp) key and differ
only in stop_id. -/
def dupD : List DemandRow := [⟨"R", "S1", 0, 10⟩, ⟨"R", "S2", 0, 10⟩]

/-- Configuration used with `dupD`: revenue_tolerance 0,
min_service_factor 0.8. -/
def dupCfg : OptimizationConfig := { revenue_tolerance := 0, min_service_factor := 8 / 10 }

/-- Scenario D demand: one row with positive baseline validations. -/
def scDd : List DemandRow := [⟨"R", "S", 0, 10⟩]

/-- Scenario D capacity: capacity 0 for every row. -/
def scDc : List CapacityRow := [⟨"R", 0, 0⟩]

/-- Scenario D fares. -/
def scDf : List (String × ℚ) := [("R", 2)]

/-- Scenario D configuration: min_service_factor 1.0. -/
def scDcfg : OptimizationConfig := { revenue_tolerance := 0, min_service_factor := 1 }

/-- A one-row instance used to witness the optimizer theorems: one route,
one timestamp, validations 10, capacity 100, fare 2. -/
def wD : List DemandRow := [⟨"R", "S", 0, 10⟩]

def wC : List CapacityRow := [⟨"R", 0, 100⟩]

def wF : List (String × ℚ) := [("R", 2)]

def wCfg : OptimizationConfig := { revenue_tolerance := 0, min_service_factor := 8 / 10 }

/-- The constant assignment used to witness the optimizer theorems. -/
def wX : String → Nat → ℚ := fun _ _ => 10

/-- The assignment refuting the per-timestamp row-sum claim on `dupD`. -/
def dupX : String → Nat → ℚ := fun _ _ => 8

/-! ## Statements of the two claims that fail on the code -/

/-- The claim that, for a given input, every output table produced from a
successful solve has, at every timestamp of the demand table, a sum of
optimized validations over the output rows with that timestamp bounded by
the returned peak load. -/
def claimC2Prop (demand : List DemandRow) (capacity : List CapacityRow)
    (fares : List (String × ℚ)) (cfg : OptimizationConfig) : Prop :=
  ∀ x peak, OptimalSolution demand capacity fares cfg x peak →
    ∀ t ∈ timesOf demand,
      tsRowSum (optimize_demand demand capacity fares x peak).rows t
        ≤ (optimize_demand demand capacity fares x peak).peak_load

/-- The claim that on the Scenario C input every successful solve returns
peak load 50 and revenue delta 0. -/
def claimC5Prop : Prop :=
  ∀ x peak, OptimalSolution scCd scCc scCf scCcfg x peak →
    (optimize_demand scCd scCc scCf x peak).peak_load = 50 ∧
    (optimize_demand scCd scCc scCf x peak).revenue_delta_pct = 0

/-! ## Simulator theorems -/

/-- Claim C6: on the Scenario A input — three peak records of 100 at hours
7, 8, 9 and six shoulder records of 50 at hours 10 through 15, elasticities
0.05 + 0.05 — the simulator returns 90 for every peak record, 55 for every
shoulder record, and a peak reduction of 10 percent, for any non-negative
fare. -/
theorem scenarioA_values (fare : ℚ) (hfare : 0 ≤ fare) :
    ((simulate_incentives scA cfgA fare).simulated.map (fun r => r.validations))
        = [90, 90, 90, 55, 55, 55, 55, 55, 55] ∧
      (simulate_incentives scA cfgA fare).peak_reduction_pct = some 10 := by
  constructor <;>
  · simp [simulate_incentives, simulatedRows, simVal, scA, cfgA, isPeak, isShoulder,
      inRange, hourOf, peakSum, shiftedSum, shoulderCount, totalElasticity]
    norm_num

theorem scenarioA_values_witness :
    0 ≤ (2 : ℚ) ∧
      (((simulate_incentives scA cfgA 2).simulated.map (fun r => r.validations))
          = [90, 90, 90, 55, 55, 55, 55, 55, 55] ∧
        (simulate_incentives scA cfgA 2).peak_reduction_pct = some 10) :=
  ⟨by norm_num, scenarioA_values 2 (by norm_num)⟩

/-- Claim C8: on a demand table whose baseline peak sum is 0, the division
`0 / 0` in the source produces the float NaN (modelled here as `none`), not
the value 0 the specification defines. -/
theorem simulate_zero_peak_nan :
    peakSum d8 cfgA = 0 ∧ (simulate_incentives d8 cfgA 2).peak_reduction_pct = none := by
  constructor <;>
    simp [simulate_incentives, peakSum, d8, cfgA, isPeak, inRange, hourOf]

/-- Claim C9, counterexample: on an empty demand table that has both required
columns, the simulator raises nothing and returns a result whose peak
reduction is NaN. -/
theorem simulate_empty_ok :
    simulate_incentives_table ⟨true, true, []⟩ cfgA 2
        = .ok (simulate_incentives [] cfgA 2) ∧
      (simulate_incentives [] cfgA 2).peak_reduction_pct = none := by
  constructor
  · rfl
  · simp [simulate_incentives, peakSum]

/-- Claim C9, amended: a table missing the timestamp column fails with a
KeyError naming "timestamp" at the first column access, a table missing the
validations column fails with a KeyError naming "validations", and a table
with both columns — even an empty one — returns a full result without any
eager validation. -/
theorem simulate_validation_behavior (b : Bool) (rows : List DemandRow)
    (cfg : ElasticityConfig) (fare : ℚ) :
    simulate_incentives_table ⟨false, b, rows⟩ cfg fare = .error "timestamp" ∧
      simulate_incentives_table ⟨true, false, rows⟩ cfg fare = .error "validations" ∧
      simulate_incentives_table ⟨true, true, rows⟩ cfg fare
        = .ok (simulate_incentives rows cfg fare) :=
  ⟨rfl, rfl, rfl⟩

/-- Claim C7, counterexample: with overlapping peak range (7, 9) and shoulder
range (9, 15), the record at hour 9 lies in both masks, and the shoulder
assignment — executed second, from the values captured before any
assignment — leaves it at 110, not at the claimed
100 × (1 − total_elasticity) = 90. -/
theorem simulate_overlap_counterexample :
    isPeak cfg7 ⟨"R", "S", 9, 100⟩ = true ∧ isShoulder cfg7 ⟨"R", "S", 9, 100⟩ = true ∧
      ((simulate_incentives d7 cfg7 1).simulated.map (fun r => r.validations)) = [110] ∧
      max 0 ((100 : ℚ) * (1 - totalElasticity cfg7)) = 90 ∧ (90 : ℚ) < 110 := by
  refine ⟨by decide, by decide, ?_, ?_, by norm_num⟩
  · simp [simulate_incentives, simulatedRows, simVal, d7, cfg7, isPeak, isShoulder,
      inRange, hourOf, peakSum, shiftedSum, shoulderCount, totalElasticity]
    norm_num
  · norm_num [totalElasticity, cfg7]

/-- Claim C7, amended: when the peak and shoulder hour masks are disjoint on
the records of the table, the records split into three mutually exclusive
classes, and every peak record comes out at its baseline validations scaled
by (1 − total_elasticity), subject only to the final clamp at 0. -/
theorem simulate_peak_scaling_disjoint (demand : List DemandRow)
    (cfg : ElasticityConfig) (fare : ℚ)
    (hv : ∀ row ∈ demand, 0 ≤ row.validations)
    (hep : 0 ≤ cfg.price_elasticity) (het : 0 ≤ cfg.time_elasticity)
    (hdisj : ∀ row ∈ demand, ¬(isPeak cfg row = true ∧ isShoulder cfg row = true)) :
    (∀ row ∈ demand,
        (isPeak cfg row = true ∧ isShoulder cfg row = false) ∨
        (isPeak cfg row = false ∧ isShoulder cfg row = true) ∨
        (isPeak cfg row = false ∧ isShoulder cfg row = false)) ∧
      List.Forall₂
        (fun row srow => isPeak cfg row = true →
          srow.validations = max 0 (row.validations * (1 - totalElasticity cfg)))
        demand (simulate_incentives demand cfg fare).simulated := by
  constructor
  · intro row hrow
    have h := hdisj row hrow
    cases hp : isPeak cfg row <;> cases hs : isShoulder cfg row <;> simp_all
  · have hsim : (simulate_incentives demand cfg fare).simulated = simulatedRows demand cfg :=
      rfl
    rw [hsim, simulatedRows, List.forall₂_map_right_iff, List.forall₂_same]
    intro row hrow hp
    have hs : isShoulder cfg row = false := by
      cases h : isShoulder cfg row
      · rfl
      · exact absurd ⟨hp, h⟩ (hdisj row hrow)
    simp only [simVal, hp, hs]
    norm_num
    congr 1
    ring

theorem simulate_peak_scaling_disjoint_witness :
    ((∀ row ∈ scA, 0 ≤ row.validations) ∧ 0 ≤ cfgA.price_elasticity ∧
        0 ≤ cfgA.time_elasticity ∧
        (∀ row ∈ scA, ¬(isPeak cfgA row = true ∧ isShoulder cfgA row = true))) ∧
      ((∀ row ∈ scA,
          (isPeak cfgA row = true ∧ isShoulder cfgA row = false) ∨
          (isPeak cfgA row = false ∧ isShoulder cfgA row = true) ∨
          (isPeak cfgA row = false ∧ isShoulder cfgA row = false)) ∧
        List.Forall₂
          (fun row srow => isPeak cfgA row = true →
            srow.validations = max 0 (row.validations * (1 - totalElasticity cfgA)))
          scA (simulate_incentives scA cfgA 2).simulated) :=
  ⟨⟨by decide, by norm_num [cfgA], by norm_num [cfgA], by decide⟩,
    simulate_peak_scaling_disjoint scA cfgA 2 (by decide) (by norm_num [cfgA])
      (by norm_num [cfgA]) (by decide)⟩

/-- Splitting the sum of the post-shift values over a list of records:
shoulder records each gain `c`, peak non-shoulder records are scaled by
`(1 - e)`, all others keep their baseline. -/
theorem sum_shift_split (cfg : ElasticityConfig) (c e : ℚ) (l : List DemandRow) :
    (l.map (fun row =>
        if isShoulder cfg row then row.validations + c
        else if isPeak cfg row then row.validations * (1 - e)
        else row.validations)).sum
      = (l.map (fun r => r.validations)).sum
        + (l.countP (fun r => isShoulder cfg r) : ℚ) * c
        - e * ((l.filter (fun r => isPeak cfg r && !(isShoulder cfg r))).map
            (fun r => r.validations)).sum := by
  induction l with
  | nil => simp
  | cons row rest ih =>
    cases hs : isShoulder cfg row <;> cases hp : isPeak cfg row <;>
      · simp [List.countP_cons, List.filter_cons, hs, hp, ih]
        push_cast
        ring

/-- Claim C10, amended: with non-negative validations and fare, a total
elasticity between 0 and 1, at least one shoulder record, and peak and
shoulder masks disjoint on the records, the total simulated validations
equal the total baseline validations exactly, and the revenue delta is 0. -/
theorem simulate_mass_conservation (demand : List DemandRow) (cfg : ElasticityConfig)
    (fare : ℚ)
    (hv : ∀ row ∈ demand, 0 ≤ row.validations) (hfare : 0 ≤ fare)
    (he0 : 0 ≤ totalElasticity cfg) (he1 : totalElasticity cfg ≤ 1)
    (hsh : ∃ row ∈ demand, isShoulder cfg row = true)
    (hdisj : ∀ row ∈ demand, ¬(isPeak cfg row = true ∧ isShoulder cfg row = true)) :
    ((simulate_incentives demand cfg fare).simulated.map (fun r => r.validations)).sum
        = (demand.map (fun r => r.validations)).sum ∧
      (simulate_incentives demand cfg fare).revenue_delta_pct = 0 := by
  have hS : 0 ≤ peakSum demand cfg := by
    apply List.sum_nonneg
    intro q hq
    rw [List.mem_map] at hq
    obtain ⟨row, hrow, rfl⟩ := hq
    exact hv row (List.mem_of_mem_filter hrow)
  have hnn : 1 ≤ demand.countP (fun r => isShoulder cfg r) := by
    obtain ⟨row, hrow, hrow2⟩ := hsh
    exact List.countP_pos_iff.mpr ⟨row, hrow, hrow2⟩
  have hcount : shoulderCount demand cfg = demand.countP (fun r => isShoulder cfg r) :=
    Nat.max_eq_left hnn
  have hnpos : (0 : ℚ) < (demand.countP (fun r => isShoulder cfg r) : ℚ) :=
    lt_of_lt_of_le one_pos (by exact_mod_cast hnn)
  have hc0 : 0 ≤ peakSum demand cfg * totalElasticity cfg
      / (demand.countP (fun r => isShoulder cfg r) : ℚ) :=
    div_nonneg (mul_nonneg hS he0) hnpos.le
  have hmap : (simulatedRows demand cfg).map (fun r => r.validations)
      = demand.map (fun row =>
          if isShoulder cfg row then
            row.validations + peakSum demand cfg * totalElasticity cfg
              / (demand.countP (fun r => isShoulder cfg r) : ℚ)
          else if isPeak cfg row then row.validations * (1 - totalElasticity cfg)
          else row.validations) := by
    rw [simulatedRows, List.map_map]
    apply List.map_congr_left
    intro row hrow
    show max 0 (simVal demand cfg row) = _
    cases hs : isShoulder cfg row
    · cases hp : isPeak cfg row
      · simp only [simVal, hs, hp, Bool.false_eq_true, if_false]
        exact max_eq_right (hv row hrow)
      · simp only [simVal, hs, hp, Bool.false_eq_true, if_false, if_true]
        have harith : row.validations + row.validations * -totalElasticity cfg
            = row.validations * (1 - totalElasticity cfg) := by ring
        rw [harith]
        exact max_eq_right (mul_nonneg (hv row hrow) (by linarith))
    · simp only [simVal, hs, if_true]
      rw [shiftedSum, hcount]
      have harith : row.validations
          - peakSum demand cfg * -totalElasticity cfg
            / (demand.countP (fun r => isShoulder cfg r) : ℚ)
          = row.validations + peakSum demand cfg * totalElasticity cfg
            / (demand.countP (fun r => isShoulder cfg r) : ℚ) := by
        ring
      rw [harith]
      exact max_eq_right (add_nonneg (hv row hrow) hc0)
  have hfil : demand.filter (fun r => isPeak cfg r && !(isShoulder cfg r))
      = demand.filter (fun r => isPeak cfg r) := by
    apply List.filter_congr
    intro row hrow
    cases hp : isPeak cfg row
    · simp
    · have hs : isShoulder cfg row = false := by
        cases h : isShoulder cfg row
        · rfl
        · exact absurd ⟨hp, h⟩ (hdisj row hrow)
      simp [hs]
  have hsum : ((simulatedRows demand cfg).map (fun r => r.validations)).sum
      = (demand.map (fun r => r.validations)).sum := by
    rw [hmap, sum_shift_split cfg _ (totalElasticity cfg) demand, hfil]
    have hps : ((demand.filter (fun r => isPeak cfg r)).map (fun r => r.validations)).sum
        = peakSum demand cfg := rfl
    rw [hps]
    have hnc : (demand.countP (fun r => isShoulder cfg r) : ℚ)
        * (peakSum demand cfg * totalElasticity cfg
          / (demand.countP (fun r => isShoulder cfg r) : ℚ))
        = peakSum demand cfg * totalElasticity cfg := by
      rw [mul_comm]
      exact div_mul_cancel₀ _ (ne_of_gt hnpos)
    have hcomm : totalElasticity cfg * peakSum demand cfg
        = peakSum demand cfg * totalElasticity cfg := mul_comm _ _
    linarith
  constructor
  · exact hsum
  · have hrev : (simulate_incentives demand cfg fare).revenue_delta_pct
        = if ((demand.map (fun r => r.validations)).sum * fare) ≠ 0
          then (((simulatedRows demand cfg).map (fun r => r.validations)).sum * fare
              - (demand.map (fun r => r.validations)).sum * fare)
            / ((demand.map (fun r => r.validations)).sum * fare) * 100
          else 0 := rfl
    rw [hrev, hsum]
    rcases eq_or_ne ((demand.map (fun r => r.validations)).sum * fare) 0 with h | h
    · simp [h]
    · simp [h]

theorem simulate_mass_conservation_witness :
    ((∀ row ∈ scA, 0 ≤ row.validations) ∧ 0 ≤ (2 : ℚ) ∧ 0 ≤ totalElasticity cfgA ∧
        totalElasticity cfgA ≤ 1 ∧ (∃ row ∈ scA, isShoulder cfgA row = true) ∧
        (∀ row ∈ scA, ¬(isPeak cfgA row = true ∧ isShoulder cfgA row = true))) ∧
      (((simulate_incentives scA cfgA 2).simulated.map (fun r => r.validations)).sum
          = (scA.map (fun r => r.validations)).sum ∧
        (simulate_incentives scA cfgA 2).revenue_delta_pct = 0) :=
  ⟨⟨by decide, by norm_num, by norm_num [totalElasticity, cfgA],
      by norm_num [totalElasticity, cfgA], by decide, by decide⟩,
    simulate_mass_conservation scA cfgA 2 (by decide) (by norm_num)
      (by norm_num [totalElasticity, cfgA]) (by norm_num [totalElasticity, cfgA])
      (by decide) (by decide)⟩

/-- Claim C10, counterexample: with a negative total elasticity (allowed by
the claim, which bounds it only from above by 1), the clamp at 0 on a
shoulder record destroys conservation: total validations jump from 15 to
110 and the revenue delta is far from 0. -/
theorem simulate_conservation_counterexample :
    (∀ row ∈ d10, 0 ≤ row.validations) ∧ 0 ≤ (2 : ℚ) ∧ totalElasticity cfg10 ≤ 1 ∧
      (∃ row ∈ d10, isShoulder cfg10 row = true) ∧
      (∀ row ∈ d10, ¬(isPeak cfg10 row = true ∧ isShoulder cfg10 row = true)) ∧
      ((simulate_incentives d10 cfg10 2).simulated.map (fun r => r.validations)).sum = 110 ∧
      (d10.map (fun r => r.validations)).sum = 15 ∧ (15 : ℚ) < 110 ∧
      (simulate_incentives d10 cfg10 2).revenue_delta_pct = 1900 / 3 := by
  refine ⟨by decide, by norm_num, by norm_num [totalElasticity, cfg10], by decide,
    by decide, ?_, ?_, by norm_num, ?_⟩
  · simp [simulate_incentives, simulatedRows, simVal, d10, cfg10, isPeak, isShoulder,
      inRange, hourOf, peakSum, shiftedSum, shoulderCount, totalElasticity]
    norm_num
  · simp [d10]
    norm_num
  · simp [simulate_incentives, simulatedRows, simVal, d10, cfg10, isPeak, isShoulder,
      inRange, hourOf, peakSum, shiftedSum, shoulderCount, totalElasticity]
    norm_num

/-! ## Optimizer theorems -/

/-- The witness instance assignment is feasible. -/
theorem wD_feasible : Feasible wD wC wF wCfg wX 10 := by
  refine ⟨?_, ?_, ?_, ?_, ?_⟩ <;>
    simp [wD, wC, wF, wCfg, wX, routesOf, timesOf, capOf, fareOf, baselineRevenue,
      gridRevenue] <;>
    norm_num

/-- Claim C1: every output row of a successful solve carries an optimized
validation at least its baseline validations times the minimum service
factor, because the per-row service-floor constraint is part of the model. -/
theorem optimize_service_floor (demand : List DemandRow) (capacity : List CapacityRow)
    (fares : List (String × ℚ)) (cfg : OptimizationConfig)
    (x : String → Nat → ℚ) (peak : ℚ)
    (hfeas : Feasible demand capacity fares cfg x peak) :
    ∀ orow ∈ (optimize_demand demand capacity fares x peak).rows,
      orow.validations * cfg.min_service_factor ≤ orow.optimized_validations := by
  intro orow hmem
  simp only [optimize_demand, optimizedRows, List.mem_map] at hmem
  obtain ⟨row, hrow, rfl⟩ := hmem
  exact hfeas.2.2.2.2 row hrow

theorem optimize_service_floor_witness :
    Feasible wD wC wF wCfg wX 10 ∧
      ∀ orow ∈ (optimize_demand wD wC wF wX 10).rows,
        orow.validations * wCfg.min_service_factor ≤ orow.optimized_validations :=
  ⟨wD_feasible, optimize_service_floor wD wC wF wCfg wX 10 wD_feasible⟩

/-- Claim C3: the revenue of a successful solve, summed over all decision
variables of the route × timestamp grid, is at least the baseline revenue
scaled by (1 − revenue_tolerance), because the revenue-floor constraint is
part of the model. -/
theorem optimize_revenue_floor (demand : List DemandRow) (capacity : List CapacityRow)
    (fares : List (String × ℚ)) (cfg : OptimizationConfig)
    (x : String → Nat → ℚ) (peak : ℚ)
    (h0 : 0 ≤ cfg.revenue_tolerance) (h1 : cfg.revenue_tolerance ≤ 1)
    (hfeas : Feasible demand capacity fares cfg x peak) :
    baselineRevenue demand fares * (1 - cfg.revenue_tolerance)
      ≤ gridRevenue demand fares x :=
  hfeas.2.2.2.1

theorem optimize_revenue_floor_witness :
    (0 ≤ wCfg.revenue_tolerance ∧ wCfg.revenue_tolerance ≤ 1 ∧
        Feasible wD wC wF wCfg wX 10) ∧
      baselineRevenue wD wF * (1 - wCfg.revenue_tolerance) ≤ gridRevenue wD wF wX :=
  ⟨⟨by norm_num [wCfg], by norm_num [wCfg], wD_feasible⟩,
    optimize_revenue_floor wD wC wF wCfg wX 10 (by norm_num [wCfg])
      (by norm_num [wCfg]) wD_feasible⟩

/-- Claim C4: the Scenario D constraint set — capacity 0 everywhere,
min_service_factor 1, positive baseline validations — admits no solution at
all, so a correct implementation must report infeasibility there; the source
instead builds and returns its output table without inspecting the solver
status. -/
theorem optimize_scenarioD_infeasible :
    (∃ x peak, Feasible scDd scDc scDf scDcfg x peak) ↔ False := by
  constructor
  · rintro ⟨x, peak, hcap, hpk, hsum, hrev, hfloor⟩
    have h1 := hfloor ⟨"R", "S", 0, 10⟩ (by simp [scDd])
    have h2 := (hcap "R" (by decide) 0 (by decide)).2
    have hc : capOf scDc "R" 0 = 0 := by decide
    rw [hc] at h2
    norm_num [scDcfg] at h1
    linarith
  · exact False.elim

/-- Any feasible assignment on the duplicate-key instance has peak load at
least 8: the shared decision variable must carry at least 10 × 0.8 = 8, and
it alone already makes up the per-timestamp route sum. -/
theorem dup_lower (x : String → Nat → ℚ) (p : ℚ)
    (hf : Feasible dupD [] [] dupCfg x p) : 8 ≤ p := by
  have h1 := hf.2.2.2.2 ⟨"R", "S1", 0, 10⟩ (by simp [dupD])
  have hr : routesOf dupD = ["R"] := by decide
  have h2 := hf.2.2.1 0 (by decide)
  rw [hr] at h2
  simp at h2
  norm_num [dupCfg] at h1
  linarith

theorem dup_feasible : Feasible dupD [] [] dupCfg dupX 8 := by
  refine ⟨?_, ?_, ?_, ?_, ?_⟩ <;>
    simp [dupD, dupCfg, dupX, routesOf, timesOf, capOf, fareOf, baselineRevenue,
      gridRevenue] <;>
    norm_num

/-- Claim C2, counterexample: on the two rows sharing the key ("R", 0), the
unique optimal assignment sets the shared decision variable to 8 with peak
load 8, yet the output carries that value on both rows, so the row sum at
timestamp 0 is 16 > 8. -/
theorem optimize_peak_rowsum_counterexample :
    claimC2Prop dupD [] [] dupCfg ↔ False := by
  constructor
  · intro h
    have hle := h dupX 8 ⟨dup_feasible, dup_lower⟩ 0 (by decide)
    have hval : tsRowSum (optimize_demand dupD [] [] dupX 8).rows 0 = 16 := by
      simp [tsRowSum, optimize_demand, optimizedRows, dupD, dupX]
      norm_num
    have hpl : (optimize_demand dupD [] [] dupX 8).peak_load = 8 := rfl
    rw [hval, hpl] at hle
    norm_num at hle
  · exact False.elim

/-- Sums of a non-negative function over duplicate-free lists respect
inclusion. -/
theorem listSum_le_of_subset (L M : List String) (f : String → ℚ) (hL : L.Nodup)
    (hM : M.Nodup) (hsub : ∀ r ∈ L, r ∈ M) (hf : ∀ r ∈ M, 0 ≤ f r) :
    (L.map f).sum ≤ (M.map f).sum := by
  rw [← List.sum_toFinset f hL, ← List.sum_toFinset f hM]
  apply Finset.sum_le_sum_of_subset_of_nonneg
  · intro a ha
    rw [List.mem_toFinset] at ha ⊢
    exact hsub a ha
  · intro i hi _
    exact hf i (List.mem_toFinset.mp hi)

/-- The per-timestamp row sum of the output table, expressed over the input
demand rows. -/
theorem tsRowSum_optimizedRows (demand : List DemandRow) (capacity : List CapacityRow)
    (x : String → Nat → ℚ) (t : Nat) :
    tsRowSum (optimizedRows demand capacity x) t
      = ((demand.filter (fun row => row.timestamp == t)).map
          (fun row => x row.route_id row.timestamp)).sum := by
  induction demand with
  | nil => simp [tsRowSum, optimizedRows]
  | cons row rest ih =>
    cases h : (row.timestamp == t) <;>
    · simp only [tsRowSum, optimizedRows] at ih ⊢
      simp [List.filter_cons, h, ih]

/-- When no two demand rows share a (route_id, timestamp) key, the routes of
the rows at a fixed timestamp are pairwise distinct. -/
theorem nodup_routes_of_nodup_keys (demand : List DemandRow) (t : Nat)
    (hkeys : (demand.map (fun row => (row.route_id, row.timestamp))).Nodup) :
    ((demand.filter (fun row => row.timestamp == t)).map
      (fun row => row.route_id)).Nodup := by
  have hsub : List.Sublist (demand.filter (fun row => row.timestamp == t)) demand :=
    List.filter_sublist demand
  have hkF : ((demand.filter (fun row => row.timestamp == t)).map
      (fun row => (row.route_id, row.timestamp))).Nodup :=
    List.Nodup.sublist (hsub.map _) hkeys
  have heq : (demand.filter (fun row => row.timestamp == t)).map (fun row => row.route_id)
      = ((demand.filter (fun row => row.timestamp == t)).map
          (fun row => (row.route_id, row.timestamp))).map Prod.fst := by
    rw [List.map_map]
    rfl
  rw [heq]
  apply List.Nodup.map_on _ hkF
  intro k1 hk1 k2 hk2 hfst
  have h1 : k1.2 = t := by
    rw [List.mem_map] at hk1
    obtain ⟨row, hrow, rfl⟩ := hk1
    simpa using (List.mem_filter.mp hrow).2
  have h2 : k2.2 = t := by
    rw [List.mem_map] at hk2
    obtain ⟨row, hrow, rfl⟩ := hk2
    simpa using (List.mem_filter.mp hrow).2
  exact Prod.ext hfst (h1.trans h2.symm)

/-- Routes of filtered rows are among the distinct routes of the table. -/
theorem filter_routes_subset (demand : List DemandRow) (t : Nat) :
    ∀ r ∈ (demand.filter (fun row => row.timestamp == t)).map (fun row => row.route_id),
      r ∈ routesOf demand := by
  intro r hr
  rw [List.mem_map] at hr
  obtain ⟨row, hrow, rfl⟩ := hr
  rw [routesOf, List.mem_dedup]
  exact List.mem_map_of_mem _ (List.mem_of_mem_filter hrow)

/-- Claim C2, amended: provided no two demand rows share the same
(route_id, timestamp) key, the sum of optimized validations over the output
rows at each timestamp of the demand table is bounded by the returned peak
load. -/
theorem optimize_peak_rowsum_nodup (demand : List DemandRow) (capacity : List CapacityRow)
    (fares : List (String × ℚ)) (cfg : OptimizationConfig)
    (x : String → Nat → ℚ) (peak : ℚ)
    (hfeas : Feasible demand capacity fares cfg x peak)
    (hkeys : (demand.map (fun row => (row.route_id, row.timestamp))).Nodup) :
    ∀ t ∈ timesOf demand,
      tsRowSum (optimize_demand demand capacity fares x peak).rows t
        ≤ (optimize_demand demand capacity fares x peak).peak_load := by
  intro t ht
  show tsRowSum (optimizedRows demand capacity x) t ≤ peak
  rw [tsRowSum_optimizedRows]
  have hmap2 : (demand.filter (fun row => row.timestamp == t)).map
        (fun row => x row.route_id row.timestamp)
      = ((demand.filter (fun row => row.timestamp == t)).map
          (fun row => row.route_id)).map (fun r => x r t) := by
    rw [List.map_map]
    apply List.map_congr_left
    intro row hrow
    have hts : row.timestamp = t := by
      simpa using (List.mem_filter.mp hrow).2
    simp [Function.comp, hts]
  rw [hmap2]
  refine le_trans ?_ (hfeas.2.2.1 t ht)
  apply listSum_le_of_subset _ _ _ (nodup_routes_of_nodup_keys demand t hkeys)
    (List.nodup_dedup _) (filter_routes_subset demand t)
  intro r hrM
  exact (hfeas.1 r hrM t ht).1

theorem optimize_peak_rowsum_nodup_witness :
    (Feasible wD wC wF wCfg wX 10 ∧
        (wD.map (fun row => (row.route_id, row.timestamp))).Nodup) ∧
      ∀ t ∈ timesOf wD,
        tsRowSum (optimize_demand wD wC wF wX 10).rows t
          ≤ (optimize_demand wD wC wF wX 10).peak_load :=
  ⟨⟨wD_feasible, by decide⟩,
    optimize_peak_rowsum_nodup wD wC wF wCfg wX 10 wD_feasible (by decide)⟩

/-- Any feasible assignment for Scenario C has peak load at least 40: the
service floor forces the timestamp-8 variable to at least 50 × 0.8 = 40, and
that variable alone makes up the route sum at timestamp 8. -/
theorem scC_lower (x : String → Nat → ℚ) (p : ℚ)
    (hf : Feasible scCd scCc scCf scCcfg x p) : 40 ≤ p := by
  have h1 := hf.2.2.2.2 ⟨"R", "S", 8, 50⟩ (by simp [scCd])
  have hr : routesOf scCd = ["R"] := by decide
  have h2 := hf.2.2.1 8 (by decide)
  rw [hr] at h2
  simp at h2
  norm_num [scCcfg] at h1
  linarith

theorem scC_feasible : Feasible scCd scCc scCf scCcfg scCx 40 := by
  refine ⟨?_, ?_, ?_, ?_, ?_⟩ <;>
    simp [scCd, scCc, scCf, scCcfg, scCx, routesOf, timesOf, capOf, fareOf,
      baselineRevenue, gridRevenue] <;>
    norm_num

/-- Claim C5, counterexample: the assignment 15/40/15 with peak load 40 is
feasible and optimal for Scenario C, so a successful solve returns peak
load 40, not the claimed 50. -/
theorem scenarioC_claim_false : claimC5Prop ↔ False := by
  constructor
  · intro h
    have h50 := (h scCx 40 ⟨scC_feasible, scC_lower⟩).1
    simp only [optimize_demand] at h50
    norm_num at h50
  · exact False.elim

/-- Claim C5, amended: on the Scenario C input every successful solve returns
peak load exactly 40, and a revenue delta that is non-negative (its exact
value is not determined by the program, which only constrains revenue from
below). -/
theorem scenarioC_peak40 (x : String → Nat → ℚ) (peak : ℚ)
    (h : OptimalSolution scCd scCc scCf scCcfg x peak) :
    (optimize_demand scCd scCc scCf x peak).peak_load = 40 ∧
      0 ≤ (optimize_demand scCd scCc scCf x peak).revenue_delta_pct := by
  constructor
  · exact le_antisymm (h.2 scCx 40 scC_feasible) (scC_lower x peak h.1)
  · show 0 ≤ revenueDeltaPct scCd scCf x
    have hb : baselineRevenue scCd scCf = 140 := by
      norm_num [baselineRevenue, scCd, scCf, fareOf]
    have hrow : rowRevenue scCd scCf x = gridRevenue scCd scCf x := by
      have hr : routesOf scCd = ["R"] := by decide
      have ht : timesOf scCd = [7, 8, 9] := by decide
      simp only [rowRevenue, gridRevenue]
      rw [hr, ht]
      simp [scCd, scCf, fareOf]
    have hg := h.1.2.2.2.1
    rw [hb] at hg
    norm_num [scCcfg] at hg
    rw [revenueDeltaPct, hb]
    rw [if_pos (by norm_num : (140 : ℚ) ≠ 0)]
    apply mul_nonneg _ (by norm_num)
    apply div_nonneg _ (by norm_num)
    rw [sub_nonneg, hrow]
    exact hg

theorem scenarioC_peak40_witness :
    OptimalSolution scCd scCc scCf scCcfg scCx 40 ∧
      ((optimize_demand scCd scCc scCf scCx 40).peak_load = 40 ∧
        0 ≤ (optimize_demand scCd scCc scCf scCx 40).revenue_delta_pct) :=
  ⟨⟨scC_feasible, scC_lower⟩, scenarioC_peak40 scCx 40 ⟨scC_feasible, scC_lower⟩⟩

end TransportAI
